import Mathlib

/-!
Verification of the `neo.visualization` package (marketing-ai-agent).

Shallow embedding conventions:
* Python strings that undergo character-level surgery (lowercasing,
  stripping, substring search) are modelled as `List Char`; plain
  identifiers and paths use Lean `String`.
* Filesystem state is a listing `List FileEntry` (name, mtime, size);
  modification times are Unix timestamps as `Nat`.
* Fallible Python steps are modelled with `Option`/`Except`; a Python
  `try/except` that converts an exception into a return value becomes a
  `match` on the `Except`.
-/

/-! ## Python string primitives (`List Char` model) -/

/-- Python `str.lower()` restricted to per-character lowering (the queries and
scripts handled by the validators are ASCII). -/
def pyLower (l : List Char) : List Char := l.map Char.toLower

/-- Python `str.strip()`: drop whitespace from both ends. -/
def pyStrip (l : List Char) : List Char :=
  ((l.dropWhile Char.isWhitespace).reverse.dropWhile Char.isWhitespace).reverse

/-- Python substring containment `needle in hay`. -/
def containsSub (needle hay : List Char) : Bool :=
  hay.tails.any (fun t => needle.isPrefixOf t)

/-! ## `ChartUtils.validate_sql_query` (src/neo/visualization/utils.py) -/

/-- The denylist `dangerous_keywords` of `validate_sql_query`, in source order. -/
def dangerous_keywords : List (List Char) :=
  ["drop".toList, "delete".toList, "truncate".toList, "alter".toList,
   "create".toList, "insert".toList, "update".toList, "grant".toList,
   "revoke".toList, "exec".toList, "execute".toList]

/-- The loop body test of `validate_sql_query`: the keyword occurs
space-delimited inside the space-padded, stripped, lowered query
(`f' \x7bkeyword\x7d ' in f' \x7bquery_lower\x7d '`). -/
def standaloneIn (kw query : List Char) : Bool :=
  containsSub (' ' :: (kw ++ [' '])) (' ' :: (pyStrip (pyLower query) ++ [' ']))

/-- `ChartUtils.validate_sql_query`: returns `(is_valid, error_message)`.
The source checks the keyword denylist first, then the `select` prefix,
then parenthesis balance. -/
def validate_sql_query (query : List Char) : Bool × List Char :=
  let query_lower := pyStrip (pyLower query)
  match dangerous_keywords.find? (fun kw => standaloneIn kw query) with
  | some kw => (false, "Query contains potentially dangerous keyword: ".toList ++ kw)
  | none =>
    if "select".toList.isPrefixOf query_lower then
      if query.count '(' = query.count ')' then (true, [])
      else (false, "Mismatched parentheses in query".toList)
    else (false, "Query must start with SELECT".toList)

/-! ## `ChartUtils.validate_plotly_code` (src/neo/visualization/utils.py) -/

/-- The denylist `dangerous_patterns` of `validate_plotly_code`, in source order. -/
def dangerous_patterns : List (List Char) :=
  ["import os".toList, "import sys".toList, "import subprocess".toList,
   "exec(".toList, "eval(".toList, "open(".toList, "__import__".toList,
   "globals()".toList, "locals()".toList, "file(".toList, "input(".toList,
   "raw_input(".toList]

/-- The plotting-library call markers checked by `validate_plotly_code`. -/
def plotly_markers : List (List Char) :=
  ["px.".toList, "go.".toList, "plotly".toList]

/-- `ChartUtils.validate_plotly_code`: returns `(is_valid, error_message)`.
Dangerous patterns are searched in the lowered text; the `fig` marker and
the plotting-library markers are searched in the original text. -/
def validate_plotly_code (plotly_code : List Char) : Bool × List Char :=
  let code_lower := pyLower plotly_code
  match dangerous_patterns.find? (fun p => containsSub p code_lower) with
  | some p => (false, "Code contains potentially dangerous pattern: ".toList ++ p)
  | none =>
    if containsSub "fig".toList plotly_code then
      if plotly_markers.any (fun m => containsSub m plotly_code) then (true, [])
      else (false, "Code should use plotly (px. or go.)".toList)
    else (false, "Code must create a variable named \x27fig\x27".toList)

/-! ## Filesystem model for `VisualizationEngine` file management

The output directory is a listing of files, each with a bare name, a
modification time (Unix seconds) and a size.  Deleting a file always
succeeds in the model (the source merely warns and skips on a failed
`os.remove`). -/

structure FileEntry where
  name : List Char
  mtime : Nat
  size : Nat
deriving DecidableEq

/-- `os.path.join(output_dir, filename)`. -/
def pathJoin (dir fname : List Char) : List Char := dir ++ '/' :: fname

/-- `os.path.exists` over the modelled listing. -/
def fexists (fs : List FileEntry) (fname : List Char) : Bool :=
  fs.any (fun e => e.name = fname)

/-! ## `VisualizationEngine.cleanup_old_charts` (core.py) -/

/-- `VisualizationEngine.cleanup_old_charts`: deletes every file whose
modification time is strictly below `now - keep_days*24*60*60` and returns
`(deleted_count, remaining files)`. -/
def cleanup_old_charts (keep_days now : Nat) (fs : List FileEntry) : Nat × List FileEntry :=
  let cutoff : Int := (now : Int) - (keep_days : Int) * (24 * 60 * 60)
  ((fs.filter (fun e => decide ((e.mtime : Int) < cutoff))).length,
   fs.filter (fun e => ! decide ((e.mtime : Int) < cutoff)))

/-! ## `VisualizationEngine.list_recent_charts` (core.py) -/

/-- Python `filename.endswith(".html")`. -/
def hasHtmlExt (l : List Char) : Bool :=
  l.drop (l.length - 5) == ".html".toList

/-- Python `filename[:-5]` for a name that passed the `.html` filter. -/
def dropHtmlExt (l : List Char) : List Char := l.take (l.length - 5)

/-- One row of `list_recent_charts`: name, paths, `modified`, `size` and the
`available_formats` list built as `['html']` plus `'json'`/`'png'` when the
sibling file exists. -/
structure ChartInfo where
  name : List Char
  html_path : List Char
  json_path : List Char
  png_path : List Char
  modified : Nat
  size : Nat
  available_formats : List String
deriving DecidableEq

/-- Build the `chart_info` dictionary for one `.html` file, as the loop body of
`list_recent_charts` does. -/
def mkChartInfo (dir : List Char) (fs : List FileEntry) (e : FileEntry) : ChartInfo :=
  let base := dropHtmlExt e.name
  { name := base
    html_path := pathJoin dir e.name
    json_path := pathJoin dir (base ++ ".json".toList)
    png_path := pathJoin dir (base ++ ".png".toList)
    modified := e.mtime
    size := e.size
    available_formats :=
      "html" :: ((if fexists fs (base ++ ".json".toList) then ["json"] else []) ++
                 (if fexists fs (base ++ ".png".toList) then ["png"] else [])) }

/-- The sort key relation of `list_recent_charts`: newer (or equal) first.
Python's `list.sort(key=..., reverse=True)` is stable, which this stable
insertion sort under `mtimeGe` reproduces. -/
def mtimeGe (a b : FileEntry) : Prop := b.mtime ≤ a.mtime

instance : DecidableRel mtimeGe := fun a b => Nat.decLe b.mtime a.mtime

instance : IsTotal FileEntry mtimeGe := ⟨fun a b => Nat.le_total b.mtime a.mtime⟩

instance : IsTrans FileEntry mtimeGe := ⟨fun _ _ _ hab hbc => Nat.le_trans hbc hab⟩

/-- `VisualizationEngine.list_recent_charts`: scan the listing for `.html`
files, sort newest-first, truncate to `limit`, and build a record per file. -/
def list_recent_charts (limit : Nat) (dir : List Char) (fs : List FileEntry) : List ChartInfo :=
  let html_files := fs.filter (fun e => hasHtmlExt e.name)
  let sorted := List.insertionSort mtimeGe html_files
  (sorted.take limit).map (mkChartInfo dir fs)

/-! ## JSON value model

`display_chart_quick_preview` consumes a parsed JSON document; `JVal` models
Python's JSON values (numbers restricted to integers, which covers the data
the claims exercise). -/

inductive JVal where
  | null
  | bool (b : Bool)
  | num (n : Int)
  | str (s : String)
  | arr (elems : List JVal)
  | obj (fields : List (String × JVal))

/-- Dictionary key lookup (`dict[k]` on a parsed JSON object). -/
def lookupKV (k : String) : List (String × JVal) → Option JVal
  | [] => none
  | (k', v) :: rest => if k = k' then some v else lookupKV k rest

/-- Python truthiness of a JSON value. -/
def jTruthy : JVal → Bool
  | .null => false
  | .bool b => b
  | .num n => n != 0
  | .str s => ! (s = "")
  | .arr es => ! es.isEmpty
  | .obj kvs => ! kvs.isEmpty

/-- Whether the value is a JSON number. -/
def JVal.isNum : JVal → Bool
  | .num _ => true
  | _ => false

mutual

/-- Python `str(v)` for JSON values (string elements inside containers are
rendered unquoted; no claim inspects those renderings). -/
def pyStr : JVal → String
  | .null => "None"
  | .bool true => "True"
  | .bool false => "False"
  | .num n => toString n
  | .str s => s
  | .arr es => "[" ++ pyStrList es ++ "]"
  | .obj kvs => "\x7b" ++ pyStrObj kvs ++ "\x7d"

/-- Comma-joined rendering of array elements. -/
def pyStrList : List JVal → String
  | [] => ""
  | [v] => pyStr v
  | v :: rest => pyStr v ++ ", " ++ pyStrList rest

/-- Comma-joined rendering of object fields. -/
def pyStrObj : List (String × JVal) → String
  | [] => ""
  | [(k, v)] => k ++ ": " ++ pyStr v
  | (k, v) :: rest => k ++ ": " ++ pyStr v ++ ", " ++ pyStrObj rest

end

/-- Python `len(v)`; raises `TypeError` on unsized values. -/
def pyLen : JVal → Except String Nat
  | .str s => .ok s.length
  | .arr es => .ok es.length
  | .obj kvs => .ok kvs.length
  | _ => .error "TypeError: object has no len"

/-- Python `v.get(k, dflt)`; raises `AttributeError` when `v` is not a dict. -/
def pyGet (j : JVal) (k : String) (dflt : JVal) : Except String JVal :=
  match j with
  | .obj kvs => .ok ((lookupKV k kvs).getD dflt)
  | _ => .error ("AttributeError: get " ++ k)

/-- Python `v[0]`. -/
def pyIndex0 : JVal → Except String JVal
  | .arr (x :: _) => .ok x
  | .arr [] => .error "IndexError: list index out of range"
  | .str s => if s = "" then .error "IndexError: string index out of range"
              else .ok (.str (s.take 1))
  | _ => .error "TypeError: object is not subscriptable"

/-- `str.title()` character pass: capitalize after a non-alphabetic character,
lowercase otherwise. -/
def pyTitleChars : List Char → Bool → List Char
  | [], _ => []
  | c :: rest, prevAlpha =>
    (if prevAlpha then c.toLower else c.toUpper) :: pyTitleChars rest c.isAlpha

/-- Python `v.title()`; raises `AttributeError` on non-strings. -/
def pyTitleOf : JVal → Except String String
  | .str s => .ok (pyTitleChars s.toList false).asString
  | _ => .error "AttributeError: title"

/-- Python `map(str, v)` for the iterables reachable after a successful
`len(v)` (lists, strings, dicts). -/
def jElemsStr : JVal → List String
  | .arr es => es.map pyStr
  | .str s => s.toList.map (fun c => String.singleton c)
  | .obj kvs => kvs.map (fun kv => kv.1)
  | _ => []

/-- Python `v[0]` as used in the X-range line. -/
def jFirstE : JVal → Except String JVal
  | .arr (x :: _) => .ok x
  | .arr [] => .error "IndexError: empty"
  | .str s => if s = "" then .error "IndexError: empty" else .ok (.str (s.take 1))
  | _ => .error "TypeError: not subscriptable"

/-- Python `v[-1]` as used in the X-range line. -/
def jLastE : JVal → Except String JVal
  | .arr es =>
    match es.getLast? with
    | some v => .ok v
    | none => .error "IndexError: empty"
  | .str s => if s = "" then .error "IndexError: empty" else .ok (.str (s.takeRight 1))
  | _ => .error "TypeError: not subscriptable"

/-- All-integer view of a JSON list, when it exists. -/
def jInts? : List JVal → Option (List Int)
  | [] => some []
  | .num n :: rest => (jInts? rest).map (fun l => n :: l)
  | _ => none

/-- All-string view of a JSON list, when it exists. -/
def jStrs? : List JVal → Option (List String)
  | [] => some []
  | .str s :: rest => (jStrs? rest).map (fun l => s :: l)
  | _ => none

/-- Python `min(v)` over a JSON list (homogeneous numbers or strings;
otherwise `TypeError`, as mixed comparisons raise). -/
def pyMinE (es : List JVal) : Except String JVal :=
  match jInts? es with
  | some (n :: ns) => .ok (.num (ns.foldl min n))
  | _ =>
    match jStrs? es with
    | some (s :: ss) => .ok (.str (ss.foldl min s))
    | _ => .error "TypeError: min"

/-- Python `max(v)` over a JSON list. -/
def pyMaxE (es : List JVal) : Except String JVal :=
  match jInts? es with
  | some (n :: ns) => .ok (.num (ns.foldl max n))
  | _ =>
    match jStrs? es with
    | some (s :: ss) => .ok (.str (ss.foldl max s))
    | _ => .error "TypeError: max"

/-! ## `ChartDisplayManager.display_chart_quick_preview` (display.py) -/

/-- The `title_text` extraction: a dict title uses its `text` field (default
`Untitled Chart`); a truthy non-dict is `str()`-ed; a falsy one defaults. -/
def titleTextOf (title : JVal) : JVal :=
  match title with
  | .obj kvs => (lookupKV "text" kvs).getD (.str "Untitled Chart")
  | v => if jTruthy v then .str (pyStr v) else .str "Untitled Chart"

/-- The underline of the preview header: `"-" * min(len(title_text)+4, 40)`. -/
def dashLine (n : Nat) : String := String.mk (List.replicate n '-')

/-- The X-data lines of the preview: `Data Points`, then `X Values` (at most
five points) or `X Range`. Nothing is emitted for a falsy `x`. -/
def xLines (x_data : JVal) : Except String (List String) :=
  if jTruthy x_data then
    match pyLen x_data with
    | .error e => .error e
    | .ok n =>
      if n ≤ 5 then
        .ok ["Data Points: " ++ toString n,
             "X Values: " ++ String.intercalate ", " (jElemsStr x_data)]
      else
        match jFirstE x_data with
        | .error e => .error e
        | .ok a =>
          match jLastE x_data with
          | .error e => .error e
          | .ok b =>
            .ok ["Data Points: " ++ toString n,
                 "X Range: " ++ pyStr a ++ " to " ++ pyStr b]
  else .ok []

/-- The Y-data lines of the preview: emitted only for a truthy list, as
`Y Values` (at most five) or `Y Range` via `min`/`max`. -/
def yLines (y_data : JVal) : Except String (List String) :=
  match y_data with
  | .arr [] => .ok []
  | .arr es =>
    if es.length ≤ 5 then
      .ok ["Y Values: " ++ String.intercalate ", " (es.map pyStr)]
    else
      match pyMinE es with
      | .error e => .error e
      | .ok m =>
        match pyMaxE es with
        | .error e => .error e
        | .ok M => .ok ["Y Range: " ++ pyStr m ++ " to " ++ pyStr M]
  | _ => .ok []

/-- The body of `display_chart_quick_preview` guarded by its `try`: produces
the preview lines or the first raised exception. -/
def previewBody (chart_data : JVal) : Except String (List String) :=
  match pyGet chart_data "layout" (.obj []) with
  | .error e => .error e
  | .ok layout =>
    match pyGet layout "title" (.obj []) with
    | .error e => .error e
    | .ok title =>
      let title_text := titleTextOf title
      match pyGet chart_data "data" (.arr []) with
      | .error e => .error e
      | .ok data_traces =>
        match pyLen title_text with
        | .error e => .error e
        | .ok tlen =>
          let header : List String :=
            ["📊 " ++ pyStr title_text, dashLine (Nat.min (tlen + 4) 40)]
          if jTruthy data_traces then
            match pyIndex0 data_traces with
            | .error e => .error e
            | .ok trace =>
              match pyGet trace "type" (.str "unknown") with
              | .error e => .error e
              | .ok trace_type =>
                match pyGet trace "x" (.arr []) with
                | .error e => .error e
                | .ok x_data =>
                  match pyGet trace "y" (.arr []) with
                  | .error e => .error e
                  | .ok y_data =>
                    match pyTitleOf trace_type with
                    | .error e => .error e
                    | .ok tt =>
                      match xLines x_data with
                      | .error e => .error e
                      | .ok lx =>
                        match yLines y_data with
                        | .error e => .error e
                        | .ok ly =>
                          .ok ((header ++ ["Chart Type: " ++ tt]) ++ lx ++ ly)
          else .ok header

/-- `ChartDisplayManager.display_chart_quick_preview`.  The input models the
file system and parser: `none` is a missing file, `some (.error e)` a read or
parse failure, `some (.ok j)` the parsed document.  Total by construction:
every exception becomes the error-description string. -/
def display_chart_quick_preview (file : Option (Except String JVal)) : String :=
  match file with
  | none => "📊 Chart file not found"
  | some (.error e) => "📊 Error reading chart: " ++ e
  | some (.ok j) =>
    match previewBody j with
    | .error e => "📊 Error reading chart: " ++ e
    | .ok lines => String.intercalate "\n" lines

/-! ## Figure model and `VisualizationEngine.generate_chart` (core.py) -/

/-- A plotly trace as the engine consumes it: its type, optional mode, and the
`x`/`y` data sequences. -/
structure Trace where
  type_ : String
  mode : Option String
  x : List JVal
  y : List JVal

/-- A plotly figure: the layout title text (if set) and the traces. -/
structure Fig where
  titleText? : Option String
  data : List Trace

/-- The `chart_data` summary dictionary that `generate_chart` *intends* to
assemble.  It is never populated: building the dictionary starts with
`getattr(fig.layout, 'title', {}).get('text', name)`, and a plotly
`layout.Title` object has no dict-style `.get`, so that line raises
`AttributeError` for every plotly figure (the only values that survive the
earlier `write_html`), before `chart_type` or `data_points` are computed. -/
structure ChartData where
  title : String
  chart_type : String
  data_points : Nat

/-- `pio.to_json` of one trace. -/
def traceToJson (t : Trace) : JVal :=
  .obj ([("x", .arr t.x), ("y", .arr t.y), ("type", .str t.type_)] ++
        (match t.mode with
         | some m => [("mode", .str m)]
         | none => []))

/-- `pio.to_json` of a figure: the `data` trace list and a `layout` whose
`title.text` is present exactly when the figure has a title. -/
def figToJson (f : Fig) : JVal :=
  .obj [("data", .arr (f.data.map traceToJson)),
        ("layout", .obj (match f.titleText? with
          | some t => [("title", .obj [("text", .str t)])]
          | none => []))]

/-- Outcome of `_execute_visualization_code`.  Its `try` wraps the `exec` of
the SQL read plus user script with `except Exception`, so an `Exception` (or
a missing `fig` variable) becomes a returned `None` (`failed`), while a
`BaseException` raised by the script — e.g. `SystemExit` — is *not* caught
there nor by the outer `except Exception` of `generate_chart`, and escapes to
the caller (`fatal`, carrying the exception). -/
inductive ExecOutcome where
  | fig (f : Fig)
  | failed
  | fatal (e : String)

/-- Outcomes of the effectful steps inside one `generate_chart` call:
the result of `_execute_visualization_code`, whether each HTML/JSON file
write raises (those are `Exception`s, caught by the outer handler), and
whether the kaleido-based PNG/SVG exporters return a path (they never
raise). -/
structure ExecEnv where
  execOutcome : ExecOutcome
  jsonRaises : Bool
  htmlRaises : Bool
  jsonErr : String
  htmlErr : String
  pngOk : Bool
  svgOk : Bool
  timestamp : String

/-- The result dictionary of `generate_chart`. -/
structure GenResult where
  success : Bool
  files : List (String × String)
  errors : List String
  chart_data : Option ChartData

/-- The name cleaning of `_generate_filename` (the trailing `.strip()` is a
no-op because whitespace is already filtered out). -/
def cleanChartName (name : String) : String :=
  (name.toList.filter (fun c => c.isAlphanum || c == '_' || c == '-')).asString

/-- `VisualizationEngine._generate_filename`. -/
def generateFilename (name ts : String) : String := cleanChartName name ++ "_" ++ ts

/-- The `str(e)` of the `AttributeError` raised while building the
`chart_data` dictionary (`layout.Title` has no `.get`). -/
def titleGetError : String :=
  "\x27plotly.graph_objs.layout.Title\x27 object has no attribute \x27get\x27"

/-- `VisualizationEngine.generate_chart`: the outer `try` turns any export
`Exception` into an `errors` entry with `success` still false at that point;
a `BaseException` escaping the script execution is not caught anywhere and
propagates to the caller (`Except.error`).  On the happy path every requested
format that produced a path is recorded and `success` flips to true — and
then the `chart_data` dictionary literal raises `AttributeError`
(`layout.Title` has no `.get`), caught by the same outer handler, so the
returned result keeps `success = true` but has `chart_data = None` and that
message appended to `errors`.  `auto_open` only triggers `_open_in_browser`,
which swallows its own exceptions and never affects the result. -/
def generate_chart (output_dir name : String) (export_formats? : Option (List String))
    (auto_open : Bool) (env : ExecEnv) : Except String GenResult :=
  let export_formats := export_formats?.getD ["html", "json"]
  let base := generateFilename name env.timestamp
  match env.execOutcome with
  | .fatal e => Except.error e
  | .failed =>
    Except.ok
      { success := false, files := [], errors := ["Failed to generate figure"],
        chart_data := none }
  | .fig _ =>
    if "json" ∈ export_formats ∧ env.jsonRaises then
      Except.ok
        { success := false, files := [],
          errors := ["Chart generation failed: " ++ env.jsonErr], chart_data := none }
    else
      let files1 :=
        if "json" ∈ export_formats then
          [("json", output_dir ++ "/" ++ base ++ ".json")] else []
      if "html" ∈ export_formats ∧ env.htmlRaises then
        Except.ok
          { success := false, files := files1,
            errors := ["Chart generation failed: " ++ env.htmlErr], chart_data := none }
      else
        let files2 := files1 ++
          (if "html" ∈ export_formats then
            [("html", output_dir ++ "/" ++ base ++ ".html")] else [])
        let files3 := files2 ++
          (if "png" ∈ export_formats ∧ env.pngOk then
            [("png", output_dir ++ "/" ++ base ++ ".png")] else [])
        let files4 := files3 ++
          (if "svg" ∈ export_formats ∧ env.svgOk then
            [("svg", output_dir ++ "/" ++ base ++ ".svg")] else [])
        Except.ok
          { success := true, files := files4,
            errors := ["Chart generation failed: " ++ titleGetError],
            chart_data := none }

/-! ## Concrete figures and environments for counterexamples and witnesses -/

/-- A figure with no title and no traces. -/
def figEmpty : Fig := ⟨none, []⟩

/-- An environment where every effectful step succeeds. -/
def envOkAll : ExecEnv :=
  ⟨ExecOutcome.fig figEmpty, false, false, "", "", true, true, "20240101_000000"⟩

/-- An environment where code execution produced no figure (the script raised
an `Exception` or bound no `fig`). -/
def envNoFig : ExecEnv :=
  ⟨ExecOutcome.failed, false, false, "", "", true, true, "20240101_000000"⟩

/-- An environment whose script raises `SystemExit`, a `BaseException` that no
`except Exception` handler catches. -/
def envFatal : ExecEnv :=
  ⟨ExecOutcome.fatal "SystemExit", false, false, "", "", true, true, "20240101_000000"⟩

/-- The trace of `figTitled`. -/
def traceTitled : Trace := ⟨"bar", none, [.str "east", .str "west"], [.num 4, .num 2]⟩

/-- A titled one-trace bar figure. -/
def figTitled : Fig := ⟨some "Revenue", [traceTitled]⟩

/-- An environment whose script produced `figTitled` and whose exports all
succeed. -/
def envTitled : ExecEnv :=
  ⟨ExecOutcome.fig figTitled, false, false, "", "", true, true, "20240101_000000"⟩

/-! ## Concrete directory states used by counterexamples and witnesses -/

/-- A directory holding one file whose modification time equals the current
time (`now = 100`). -/
def fsTieNow : List FileEntry := [⟨"chart.html".toList, 100, 0⟩]

/-- Two `.html` files sharing one modification time. -/
def fsTieMtime : List FileEntry := [⟨"a.html".toList, 5, 0⟩, ⟨"b.html".toList, 5, 0⟩]

/-- The `.html` file of the C7 witness directory. -/
def entryW : FileEntry := ⟨"a.html".toList, 10, 3⟩

/-- A directory with one chart (`a.html`) and its `json` sibling. -/
def fsW : List FileEntry := [entryW, ⟨"a.json".toList, 9, 1⟩]

/-- The record `list_recent_charts` builds for `entryW` over `fsW`. -/
def chartInfoW : ChartInfo := mkChartInfo "out".toList fsW entryW

/-! ## Theorems for C1 and C2 -/

/-- A list with a non-empty left part of an append is non-empty. -/
theorem append_left_ne_nil {α : Type} (l l' : List α) (h : l ≠ []) : l ++ l' ≠ [] := by
  intro hc
  exact h (List.append_eq_nil.mp hc).1

/-- Claim C1: `validate_sql_query` accepts exactly the queries whose trimmed,
case-folded text starts with `select`, which contain no denylisted keyword as
a standalone (space-delimited) token, and whose parenthesis counts balance;
every rejection carries a non-empty reason. -/
theorem C1_validate_sql_query_correct (query : List Char) :
    ((validate_sql_query query).1 = true ↔
      ("select".toList.isPrefixOf (pyStrip (pyLower query)) = true ∧
       (∀ kw ∈ dangerous_keywords, standaloneIn kw query = false) ∧
       query.count '(' = query.count ')')) ∧
    ((validate_sql_query query).1 = false → (validate_sql_query query).2 ≠ []) := by
  simp only [validate_sql_query]
  cases hf : dangerous_keywords.find? (fun kw => standaloneIn kw query) with
  | some kw =>
    have hkw := List.find?_some hf
    have hmem := List.mem_of_find?_eq_some hf
    refine ⟨?_, fun _ => append_left_ne_nil _ _ (by decide)⟩
    simp only [Bool.false_eq_true, false_iff]
    rintro ⟨-, hall, -⟩
    rw [hall kw hmem] at hkw
    exact Bool.false_ne_true hkw
  | none =>
    have hnone : ∀ kw ∈ dangerous_keywords, standaloneIn kw query = false := by
      intro kw h
      have := List.find?_eq_none.mp hf kw h
      simpa using this
    by_cases hsel : ("select".toList.isPrefixOf (pyStrip (pyLower query)) = true)
    · by_cases hpar : query.count '(' = query.count ')'
      · rw [if_pos hsel, if_pos hpar]
        exact ⟨⟨fun _ => ⟨hsel, hnone, hpar⟩, fun _ => rfl⟩, fun h => nomatch h⟩
      · rw [if_pos hsel, if_neg hpar]
        refine ⟨?_, fun _ => by decide⟩
        simp only [Bool.false_eq_true, false_iff]
        rintro ⟨-, -, hp⟩
        exact hpar hp
    · rw [if_neg hsel]
      refine ⟨?_, fun _ => by decide⟩
      simp only [Bool.false_eq_true, false_iff]
      rintro ⟨hs, -, -⟩
      exact hsel hs

/-- Concrete use of `C1_validate_sql_query_correct`: a query containing the
standalone keyword `delete` is rejected with a non-empty reason. -/
theorem C1_validate_sql_query_correct_witness :
    (validate_sql_query "select x from t where 1=1 delete from t".toList).2 ≠ [] :=
  (C1_validate_sql_query_correct _).2 (by decide)

/-- Claim C2: `validate_plotly_code` rejects with a non-empty reason whenever a
denylisted dangerous substring occurs in the case-folded script, or the literal
marker `fig` is absent, or no plotting-library marker is present. -/
theorem C2_validate_plotly_code_rejects (plotly_code : List Char)
    (h : (∃ p ∈ dangerous_patterns, containsSub p (pyLower plotly_code) = true) ∨
         containsSub "fig".toList plotly_code = false ∨
         (∀ m ∈ plotly_markers, containsSub m plotly_code = false)) :
    (validate_plotly_code plotly_code).1 = false ∧
    (validate_plotly_code plotly_code).2 ≠ [] := by
  simp only [validate_plotly_code]
  cases hf : dangerous_patterns.find? (fun p => containsSub p (pyLower plotly_code)) with
  | some p => exact ⟨rfl, append_left_ne_nil _ _ (by decide)⟩
  | none =>
    have hnone : ∀ p ∈ dangerous_patterns, ¬ containsSub p (pyLower plotly_code) = true :=
      fun p hp => List.find?_eq_none.mp hf p hp
    rcases h with ⟨p, hp, hsub⟩ | hfig | hlib
    · exact absurd hsub (hnone p hp)
    · rw [if_neg (fun hc => Bool.false_ne_true (hfig ▸ hc))]
      exact ⟨rfl, by decide⟩
    · by_cases hfig : (containsSub "fig".toList plotly_code = true)
      · have hany : ¬ (plotly_markers.any (fun m => containsSub m plotly_code) = true) := by
          simp only [List.any_eq_true, not_exists]
          intro m
          rintro ⟨hm, hsub⟩
          rw [hlib m hm] at hsub
          exact Bool.false_ne_true hsub
        rw [if_pos hfig, if_neg hany]
        exact ⟨rfl, by decide⟩
      · rw [if_neg hfig]
        exact ⟨rfl, by decide⟩

/-- Concrete use of `C2_validate_plotly_code_rejects`: a script without the
`fig` marker is rejected. -/
theorem C2_validate_plotly_code_rejects_witness :
    (validate_plotly_code "import plotly.express as px".toList).1 = false ∧
    (validate_plotly_code "import plotly.express as px".toList).2 ≠ [] :=
  C2_validate_plotly_code_rejects _ (Or.inr (Or.inl (by decide)))

/-! ## Theorems for C5, C6, C7 -/

/-- Claim C5 counterexample: with `now = 100`, a file whose modification time
is exactly `now` survives `cleanup_old_charts 0`, so "cleanup_old_charts(0)
deletes every file in the output directory" fails as stated. -/
theorem C5_cleanup_counterexample :
    (cleanup_old_charts 0 100 fsTieNow).1 = 0 ∧
    (cleanup_old_charts 0 100 fsTieNow).2 = fsTieNow ∧
    fsTieNow ≠ [] := by decide

/-- Claim C5 (amended): `cleanup_old_charts days` deletes exactly the files
whose modification time is strictly below `now - days*86400` and returns their
count; with `days = 0` it deletes exactly the files strictly older than `now`;
when `days*86400 ≥ now` (a huge retention) it deletes nothing. -/
theorem C5_cleanup_old_charts_amended (keep_days now : Nat) (fs : List FileEntry) :
    (cleanup_old_charts keep_days now fs).1 =
      (fs.filter (fun e =>
        decide ((e.mtime : Int) < (now : Int) - (keep_days : Int) * (24 * 60 * 60)))).length ∧
    (cleanup_old_charts keep_days now fs).2 =
      fs.filter (fun e =>
        ! decide ((e.mtime : Int) < (now : Int) - (keep_days : Int) * (24 * 60 * 60))) ∧
    (keep_days = 0 →
      (cleanup_old_charts keep_days now fs).1 =
        (fs.filter (fun e => decide (e.mtime < now))).length ∧
      (cleanup_old_charts keep_days now fs).2 =
        fs.filter (fun e => ! decide (e.mtime < now))) ∧
    ((now : Int) ≤ (keep_days : Int) * (24 * 60 * 60) →
      (cleanup_old_charts keep_days now fs).1 = 0 ∧
      (cleanup_old_charts keep_days now fs).2 = fs) := by
  refine ⟨rfl, rfl, ?_, ?_⟩
  · rintro rfl
    constructor
    · simp only [cleanup_old_charts]
      congr 1
      apply List.filter_congr
      intro e _
      rw [decide_eq_decide]
      omega
    · simp only [cleanup_old_charts]
      apply List.filter_congr
      intro e _
      congr 1
      rw [decide_eq_decide]
      omega
  · intro hcut
    constructor
    · simp only [cleanup_old_charts]
      rw [List.length_eq_zero]
      rw [List.filter_eq_nil_iff]
      intro e _
      simp only [decide_eq_true_eq]
      omega
    · simp only [cleanup_old_charts]
      rw [List.filter_eq_self]
      intro e _
      simp only [Bool.not_eq_true']
      simp only [decide_eq_false_iff_not]
      omega

/-- Concrete use of `C5_cleanup_old_charts_amended`: both guarded parts at
explicit inputs (retention 0 at time 100; retention 1 day at time 50000). -/
theorem C5_cleanup_old_charts_amended_witness :
    (cleanup_old_charts 0 100 fsTieNow).2 =
      fsTieNow.filter (fun e => ! decide (e.mtime < 100)) ∧
    (cleanup_old_charts 1 50000 fsTieNow).1 = 0 :=
  ⟨((C5_cleanup_old_charts_amended 0 100 fsTieNow).2.2.1 rfl).2,
   ((C5_cleanup_old_charts_amended 1 50000 fsTieNow).2.2.2 (by decide)).1⟩

/-- Claim C6 counterexample: two `.html` files sharing one modification time
are both returned, so the output is not *strictly* descending in mtime. -/
theorem C6_list_recent_counterexample :
    ((list_recent_charts 10 [] fsTieMtime).map (fun c => c.modified)) = [5, 5] ∧
    ¬ ((list_recent_charts 10 [] fsTieMtime).map (fun c => c.modified)).Chain'
        (fun a b => a > b) := by
  have h : ((list_recent_charts 10 [] fsTieMtime).map (fun c => c.modified)) = [5, 5] := by
    decide
  refine ⟨h, ?_⟩
  rw [h]
  simp [List.chain'_cons]

/-- Claim C6 (amended): `list_recent_charts limit` returns at most `limit`
records, ordered by non-increasing (newest-first) modification time; ties are
allowed (Python's stable sort keeps scan order among equal mtimes). -/
theorem C6_list_recent_charts_amended (limit : Nat) (dir : List Char) (fs : List FileEntry) :
    (list_recent_charts limit dir fs).length ≤ limit ∧
    ((list_recent_charts limit dir fs).map (fun c => c.modified)).Pairwise
      (fun a b => b ≤ a) := by
  constructor
  · simp only [list_recent_charts]
    rw [List.length_map]
    exact List.length_take_le _ _
  · simp only [list_recent_charts]
    have hs : (List.insertionSort mtimeGe
        (fs.filter (fun e => hasHtmlExt e.name))).Pairwise mtimeGe :=
      List.sorted_insertionSort mtimeGe _
    have ht : ((List.insertionSort mtimeGe
        (fs.filter (fun e => hasHtmlExt e.name))).take limit).Pairwise mtimeGe :=
      hs.sublist (List.take_sublist _ _)
    rw [List.map_map]
    exact List.Pairwise.map _ (fun a b h => h) ht

/-- Claim C7: every record returned by `list_recent_charts` stems from an
existing `.html` file; `available_formats` always lists `html`, and lists
`json`/`png` exactly when the sibling file of that name exists. -/
theorem C7_list_recent_charts_record_invariant (limit : Nat) (dir : List Char)
    (fs : List FileEntry) (c : ChartInfo)
    (hc : c ∈ list_recent_charts limit dir fs) :
    (∃ e ∈ fs, e.name = c.name ++ ".html".toList) ∧
    "html" ∈ c.available_formats ∧
    ("json" ∈ c.available_formats ↔ fexists fs (c.name ++ ".json".toList) = true) ∧
    ("png" ∈ c.available_formats ↔ fexists fs (c.name ++ ".png".toList) = true) := by
  simp only [list_recent_charts] at hc
  rcases List.mem_map.mp hc with ⟨e, he, rfl⟩
  have hmemSorted : e ∈ List.insertionSort mtimeGe (fs.filter (fun e => hasHtmlExt e.name)) :=
    (List.take_sublist _ _).subset he
  have hmemFilter : e ∈ fs.filter (fun e => hasHtmlExt e.name) :=
    (List.perm_insertionSort mtimeGe _).subset hmemSorted
  have hmem : e ∈ fs := (List.mem_filter.mp hmemFilter).1
  have hext : hasHtmlExt e.name = true := (List.mem_filter.mp hmemFilter).2
  have hdrop : e.name.drop (e.name.length - 5) = ".html".toList := by
    have := hext
    simp only [hasHtmlExt, beq_iff_eq] at this
    exact this
  have hname : dropHtmlExt e.name ++ ".html".toList = e.name := by
    calc dropHtmlExt e.name ++ ".html".toList
        = e.name.take (e.name.length - 5) ++ e.name.drop (e.name.length - 5) := by
          rw [hdrop]; rfl
      _ = e.name := List.take_append_drop _ _
  refine ⟨⟨e, hmem, ?_⟩, ?_, ?_, ?_⟩
  · simpa [mkChartInfo] using hname.symm
  · simp [mkChartInfo]
  · simp only [mkChartInfo]
    by_cases hj : fexists fs (dropHtmlExt e.name ++ ".json".toList) = true
    · simp [hj]
    · have hj' : fexists fs (dropHtmlExt e.name ++ ".json".toList) = false := by
        simpa using hj
      by_cases hp : fexists fs (dropHtmlExt e.name ++ ".png".toList) = true
      · simp [hj', hp]
      · have hp' : fexists fs (dropHtmlExt e.name ++ ".png".toList) = false := by
          simpa using hp
        simp [hj', hp']
  · simp only [mkChartInfo]
    by_cases hp : fexists fs (dropHtmlExt e.name ++ ".png".toList) = true
    · by_cases hj : fexists fs (dropHtmlExt e.name ++ ".json".toList) = true
      · simp [hj, hp]
      · have hj' : fexists fs (dropHtmlExt e.name ++ ".json".toList) = false := by
          simpa using hj
        simp [hj', hp]
    · have hp' : fexists fs (dropHtmlExt e.name ++ ".png".toList) = false := by
        simpa using hp
      by_cases hj : fexists fs (dropHtmlExt e.name ++ ".json".toList) = true
      · simp [hj, hp']
      · have hj' : fexists fs (dropHtmlExt e.name ++ ".json".toList) = false := by
          simpa using hj
        simp [hj', hp']

/-- Concrete use of `C7_list_recent_charts_record_invariant`: over `fsW`, the
record for `a.html` lists `html` and `json` (its sibling exists) and stems
from the existing file. -/
theorem C7_list_recent_charts_record_invariant_witness :
    (∃ e ∈ fsW, e.name = chartInfoW.name ++ ".html".toList) ∧
    "html" ∈ chartInfoW.available_formats ∧
    ("json" ∈ chartInfoW.available_formats ↔
      fexists fsW (chartInfoW.name ++ ".json".toList) = true) ∧
    ("png" ∈ chartInfoW.available_formats ↔
      fexists fsW (chartInfoW.name ++ ".png".toList) = true) :=
  C7_list_recent_charts_record_invariant 10 "out".toList fsW chartInfoW (by decide)

/-! ## Theorems for C3 and C4 -/

/-- Key membership for an optionally-present singleton entry of the
format-to-path mapping. -/
theorem mem_fst_if_singleton (a k v : String) (c : Prop) [Decidable c] :
    (a ∈ (if c then [(k, v)] else []).map Prod.fst) ↔ (c ∧ a = k) := by
  split_ifs with hc
  · simp [hc]
  · simp [hc]

/-- Claim C3 counterexample: a script that raises `SystemExit` — a
`BaseException`, which even passes the validator when paired with a `fig`
assignment and a plotly marker — escapes both `except Exception` handlers, so
`generate_chart` raises to its caller instead of returning a result. -/
theorem C3_generate_chart_counterexample :
    generate_chart "output/charts" "mychart" none true envFatal =
      Except.error "SystemExit" := rfl

/-- Claim C3 (amended): an `Exception` raised by query or script execution, or
a missing figure variable, is contained as a returned result with
`success = false` and non-empty `errors`; every returned result carries
non-empty `errors` (on the happy path the `chart_data` construction itself
raises and is caught); but a `BaseException` raised by the script (e.g.
`SystemExit`) escapes `generate_chart` to its caller, since both handlers
catch only `Exception`. -/
theorem C3_generate_chart_amended (output_dir name : String)
    (export_formats? : Option (List String)) (auto_open : Bool) (env : ExecEnv) :
    (env.execOutcome = ExecOutcome.failed →
      generate_chart output_dir name export_formats? auto_open env =
        Except.ok { success := false, files := [],
                    errors := ["Failed to generate figure"], chart_data := none }) ∧
    (∀ r, generate_chart output_dir name export_formats? auto_open env = Except.ok r →
      r.errors ≠ []) ∧
    (∀ e, env.execOutcome = ExecOutcome.fatal e →
      generate_chart output_dir name export_formats? auto_open env =
        Except.error e) := by
  simp only [generate_chart]
  cases hE : env.execOutcome with
  | fatal e =>
    refine ⟨fun hc => ExecOutcome.noConfusion hc, ?_, ?_⟩
    · intro r hr
      exact Except.noConfusion hr
    · intro e' he
      injection he with he
      rw [he]
  | failed =>
    refine ⟨fun _ => rfl, ?_, fun e hc => ExecOutcome.noConfusion hc⟩
    intro r hr
    dsimp only at hr
    injection hr with hr
    subst hr
    exact List.cons_ne_nil _ _
  | fig f =>
    refine ⟨fun hc => ExecOutcome.noConfusion hc, ?_,
            fun e hc => ExecOutcome.noConfusion hc⟩
    intro r hr
    dsimp only at hr
    by_cases h1 : ("json" ∈ export_formats?.getD ["html", "json"] ∧ env.jsonRaises = true)
    · rw [if_pos h1] at hr
      injection hr with hr
      subst hr
      exact List.cons_ne_nil _ _
    · rw [if_neg h1] at hr
      by_cases h2 : ("html" ∈ export_formats?.getD ["html", "json"] ∧ env.htmlRaises = true)
      · rw [if_pos h2] at hr
        injection hr with hr
        subst hr
        exact List.cons_ne_nil _ _
      · rw [if_neg h2] at hr
        injection hr with hr
        subst hr
        exact List.cons_ne_nil _ _

/-- Concrete use of `C3_generate_chart_amended`: a failed execution returns a
contained failure, and a `SystemExit` from the script propagates out. -/
theorem C3_generate_chart_amended_witness :
    generate_chart "output/charts" "mychart" none true envNoFig =
      Except.ok { success := false, files := [],
                  errors := ["Failed to generate figure"], chart_data := none } ∧
    generate_chart "output/charts" "mychart" none true envFatal =
      Except.error "SystemExit" :=
  ⟨(C3_generate_chart_amended "output/charts" "mychart" none true envNoFig).1 rfl,
   (C3_generate_chart_amended "output/charts" "mychart" none true envFatal).2.2
     "SystemExit" rfl⟩

/-- Claim C4 counterexample: with `export_formats = []` a generation succeeds
with an *empty* mapping (so an empty mapping does not propagate as failure and
a successful mapping need not contain `html`); with `export_formats = ['html']`
the PNG renderer is available yet `png` is absent from the mapping (so
presence is not equivalent to renderer success alone). -/
theorem C4_generate_chart_counterexample :
    ((generate_chart "out" "n" (some []) true envOkAll).map
      (fun r => (r.success, r.files)) = Except.ok (true, [])) ∧
    ((generate_chart "out" "n" (some ["html"]) true envOkAll).map
      (fun r => r.success) = Except.ok true ∧
     envOkAll.pngOk = true ∧
     (generate_chart "out" "n" (some ["html"]) true envOkAll).map
      (fun r => decide ("png" ∈ r.files.map Prod.fst)) = Except.ok false) :=
  ⟨rfl, rfl, rfl, rfl⟩

/-- Claim C4 (amended): for calls whose requested format list contains `html`,
success implies the mapping contains `html`; `png`/`svg` are present iff they
were requested, their renderer succeeded, and the generation succeeded (a
failed optional renderer never fails the generation, as the last conjunct
shows). -/
theorem C4_generate_chart_amended (output_dir name : String) (fmts : List String)
    (auto_open : Bool) (env : ExecEnv) (h : "html" ∈ fmts) :
    (∀ r, generate_chart output_dir name (some fmts) auto_open env = Except.ok r →
      (r.success = true → "html" ∈ r.files.map Prod.fst) ∧
      ("png" ∈ r.files.map Prod.fst ↔
        ("png" ∈ fmts ∧ env.pngOk = true ∧ r.success = true)) ∧
      ("svg" ∈ r.files.map Prod.fst ↔
        ("svg" ∈ fmts ∧ env.svgOk = true ∧ r.success = true))) ∧
    (∀ fg, env.execOutcome = ExecOutcome.fig fg →
      ("json" ∈ fmts → env.jsonRaises = false) → env.htmlRaises = false →
      (generate_chart output_dir name (some fmts) auto_open env).map
        (fun r => r.success) = Except.ok true) := by
  simp only [generate_chart, Option.getD_some]
  cases hE : env.execOutcome with
  | fatal e =>
    refine ⟨?_, ?_⟩
    · intro r hr
      exact Except.noConfusion hr
    · intro fg hc
      exact ExecOutcome.noConfusion hc
  | failed =>
    refine ⟨?_, ?_⟩
    · intro r hr
      dsimp only at hr
      injection hr with hr
      subst hr
      refine ⟨fun hs => Bool.noConfusion hs, by simp, by simp⟩
    · intro fg hc
      exact ExecOutcome.noConfusion hc
  | fig f =>
    dsimp only
    by_cases hj : ("json" ∈ fmts ∧ env.jsonRaises = true)
    · rw [if_pos hj]
      refine ⟨?_, ?_⟩
      · intro r hr
        injection hr with hr
        subst hr
        refine ⟨fun hs => Bool.noConfusion hs, by simp, by simp⟩
      · intro fg _ hjr _
        have := hj.2
        rw [hjr hj.1] at this
        exact (Bool.false_ne_true this).elim
    · rw [if_neg hj]
      by_cases hh : ("html" ∈ fmts ∧ env.htmlRaises = true)
      · rw [if_pos hh]
        refine ⟨?_, ?_⟩
        · intro r hr
          injection hr with hr
          subst hr
          refine ⟨fun hs => Bool.noConfusion hs, ?_, ?_⟩
          · simp [mem_fst_if_singleton]
          · simp [mem_fst_if_singleton]
        · intro fg _ _ hhr
          have := hh.2
          rw [hhr] at this
          exact (Bool.false_ne_true this).elim
      · rw [if_neg hh]
        refine ⟨?_, fun fg _ _ _ => rfl⟩
        intro r hr
        injection hr with hr
        subst hr
        refine ⟨?_, ?_, ?_⟩
        · intro _
          simp [mem_fst_if_singleton, h]
        · simp [mem_fst_if_singleton]
        · simp [mem_fst_if_singleton]

/-- Concrete use of `C4_generate_chart_amended`: with the default formats and
an all-successful environment the generation succeeds. -/
theorem C4_generate_chart_amended_witness :
    (generate_chart "out" "n" (some ["html", "json"]) true envOkAll).map
      (fun r => r.success) = Except.ok true :=
  (C4_generate_chart_amended "out" "n" ["html", "json"] true envOkAll
    (by decide)).2 figEmpty rfl (fun _ => rfl) rfl

/-! ## Theorems for C10 and C8 -/

/-- A list of JSON numbers always has an all-integer view of the same length. -/
theorem jInts?_of_all_num : ∀ (es : List JVal), (∀ v ∈ es, v.isNum = true) →
    ∃ l, jInts? es = some l ∧ l.length = es.length := by
  intro es
  induction es with
  | nil => exact fun _ => ⟨[], rfl, rfl⟩
  | cons v vs ih =>
    intro h
    have hv := h v (List.mem_cons_self _ _)
    cases v with
    | num n =>
      obtain ⟨l, hl, hlen⟩ := ih (fun w hw => h w (List.mem_cons_of_mem _ hw))
      exact ⟨n :: l, by simp [jInts?, hl], by simp [hlen]⟩
    | null => exact absurd hv (by simp [JVal.isNum])
    | bool b => exact absurd hv (by simp [JVal.isNum])
    | str s => exact absurd hv (by simp [JVal.isNum])
    | arr es2 => exact absurd hv (by simp [JVal.isNum])
    | obj kvs => exact absurd hv (by simp [JVal.isNum])

/-- Claim C10: the quick preview is total and never raises; a missing file
yields the fixed not-found message, a read/parse failure yields the
error-description string, and a document lacking layout (or a layout lacking
a title) and lacking traces yields the default title with no trace lines. -/
theorem C10_display_chart_quick_preview_robust :
    (display_chart_quick_preview none = "📊 Chart file not found") ∧
    (∀ e : String, display_chart_quick_preview (some (Except.error e)) =
      "📊 Error reading chart: " ++ e) ∧
    (∀ kvs : List (String × JVal), lookupKV "layout" kvs = none →
      lookupKV "data" kvs = none →
      display_chart_quick_preview (some (Except.ok (JVal.obj kvs))) =
        "📊 Untitled Chart" ++ "\n" ++ dashLine 18) ∧
    (∀ kvs lkvs : List (String × JVal), lookupKV "layout" kvs = some (JVal.obj lkvs) →
      lookupKV "title" lkvs = none → lookupKV "data" kvs = none →
      display_chart_quick_preview (some (Except.ok (JVal.obj kvs))) =
        "📊 Untitled Chart" ++ "\n" ++ dashLine 18) := by
  refine ⟨rfl, fun e => rfl, ?_, ?_⟩
  · intro kvs h1 h2
    have hl : pyGet (JVal.obj kvs) "layout" (JVal.obj []) = Except.ok (JVal.obj []) := by
      simp [pyGet, h1]
    have hd : pyGet (JVal.obj kvs) "data" (JVal.arr []) = Except.ok (JVal.arr []) := by
      simp [pyGet, h2]
    simp only [display_chart_quick_preview, previewBody, hl, hd]
    rfl
  · intro kvs lkvs h1 ht h2
    have hl : pyGet (JVal.obj kvs) "layout" (JVal.obj []) =
        Except.ok (JVal.obj lkvs) := by
      simp [pyGet, h1]
    have htt : pyGet (JVal.obj lkvs) "title" (JVal.obj []) = Except.ok (JVal.obj []) := by
      simp [pyGet, ht]
    have hd : pyGet (JVal.obj kvs) "data" (JVal.arr []) = Except.ok (JVal.arr []) := by
      simp [pyGet, h2]
    simp only [display_chart_quick_preview, previewBody, hl, htt, hd]
    rfl

/-- Concrete use of `C10_display_chart_quick_preview_robust`: empty documents
with and without an empty layout produce the default-title preview. -/
theorem C10_display_chart_quick_preview_robust_witness :
    display_chart_quick_preview (some (Except.ok (JVal.obj []))) =
      "📊 Untitled Chart" ++ "\n" ++ dashLine 18 ∧
    display_chart_quick_preview (some (Except.ok
        (JVal.obj [("layout", JVal.obj [])]))) =
      "📊 Untitled Chart" ++ "\n" ++ dashLine 18 :=
  ⟨C10_display_chart_quick_preview_robust.2.2.1 [] rfl rfl,
   C10_display_chart_quick_preview_robust.2.2.2 [("layout", JVal.obj [])] [] rfl rfl rfl⟩

/-- Claim C8 counterexample: a successful generation of the titled figure
exports JSON, yet the returned `chart_data` is `None` (the summary-dictionary
construction raised `AttributeError`, recorded in `errors`), so
`generate_chart` reported no title and no point count at all — while the
quick preview of that JSON yields the title `Revenue` and a two-point count
from the file alone.  The claimed equality with what `chart_data` reported
therefore holds for no successful export. -/
theorem C8_roundtrip_counterexample :
    (generate_chart "out" "sales" (some ["html", "json"]) true envTitled).map
      (fun r => (r.success, r.chart_data)) = Except.ok (true, none) ∧
    (generate_chart "out" "sales" (some ["html", "json"]) true envTitled).map
      (fun r => r.errors) =
      Except.ok ["Chart generation failed: " ++ titleGetError] ∧
    previewBody (figToJson figTitled) =
      Except.ok ["📊 Revenue", dashLine 11, "Chart Type: Bar",
                 "Data Points: 2", "X Values: east, west", "Y Values: 4, 2"] :=
  ⟨rfl, rfl, rfl⟩

/-- Claim C8 (amended): the summary metadata is never populated — every result
`generate_chart` returns has `chart_data = None`, because building the
dictionary raises `AttributeError` (a plotly `layout.Title` has no `.get`)
after `success` is set — so there is no metadata to round-trip; the quick
preview derives both values from the structured file alone: for a figure with
a layout title and a first trace with non-empty `x` and numeric `y`, the
preview opens with that title and contains a `Data Points` line with the
length of the trace's `x` sequence. -/
theorem C8_roundtrip_amended (output_dir name : String)
    (export_formats? : Option (List String)) (auto_open : Bool) (env : ExecEnv)
    (f : Fig) (t : String) (tr : Trace) (rest : List Trace)
    (ht : f.titleText? = some t) (hd : f.data = tr :: rest)
    (hx : tr.x ≠ []) (hy : ∀ v ∈ tr.y, v.isNum = true) :
    (∀ r, generate_chart output_dir name export_formats? auto_open env =
      Except.ok r → r.chart_data = none) ∧
    (∃ L, previewBody (figToJson f) = Except.ok L ∧
      L.head? = some ("📊 " ++ t) ∧
      ("Data Points: " ++ toString tr.x.length) ∈ L) := by
  refine ⟨?_, ?_⟩
  · simp only [generate_chart]
    cases hE : env.execOutcome with
    | fatal e =>
      intro r hr
      exact Except.noConfusion hr
    | failed =>
      intro r hr
      dsimp only at hr
      injection hr with hr
      subst hr
      rfl
    | fig fg =>
      intro r hr
      dsimp only at hr
      by_cases hj : ("json" ∈ export_formats?.getD ["html", "json"] ∧
        env.jsonRaises = true)
      · rw [if_pos hj] at hr
        injection hr with hr
        subst hr
        rfl
      · rw [if_neg hj] at hr
        by_cases hh : ("html" ∈ export_formats?.getD ["html", "json"] ∧
          env.htmlRaises = true)
        · rw [if_pos hh] at hr
          injection hr with hr
          subst hr
          rfl
        · rw [if_neg hh] at hr
          injection hr with hr
          subst hr
          rfl
  obtain ⟨tq, data⟩ := f
  dsimp only at ht hd
  subst ht
  subst hd
  have h1 : pyGet (figToJson ⟨some t, tr :: rest⟩) "layout" (JVal.obj []) =
      Except.ok (JVal.obj [("title", JVal.obj [("text", JVal.str t)])]) := by
    simp [figToJson, pyGet, lookupKV]
  have h2 : pyGet (JVal.obj [("title", JVal.obj [("text", JVal.str t)])]) "title"
      (JVal.obj []) = Except.ok (JVal.obj [("text", JVal.str t)]) := by
    simp [pyGet, lookupKV]
  have h3 : titleTextOf (JVal.obj [("text", JVal.str t)]) = JVal.str t := by
    simp [titleTextOf, lookupKV]
  have h4 : pyGet (figToJson ⟨some t, tr :: rest⟩) "data" (JVal.arr []) =
      Except.ok (JVal.arr (traceToJson tr :: rest.map traceToJson)) := by
    simp [figToJson, pyGet, lookupKV]
  have h5 : pyGet (traceToJson tr) "type" (JVal.str "unknown") =
      Except.ok (JVal.str tr.type_) := by
    simp [traceToJson, pyGet, lookupKV]
  have h6 : pyGet (traceToJson tr) "x" (JVal.arr []) = Except.ok (JVal.arr tr.x) := by
    simp [traceToJson, pyGet, lookupKV]
  have h7 : pyGet (traceToJson tr) "y" (JVal.arr []) = Except.ok (JVal.arr tr.y) := by
    simp [traceToJson, pyGet, lookupKV]
  have hxt : jTruthy (JVal.arr tr.x) = true := by
    cases hxe : tr.x with
    | nil => exact absurd hxe hx
    | cons a xs => simp [jTruthy]
  obtain ⟨lx, hlx, hlxmem⟩ : ∃ lx, xLines (JVal.arr tr.x) = Except.ok lx ∧
      ("Data Points: " ++ toString tr.x.length) ∈ lx := by
    have hplen : pyLen (JVal.arr tr.x) = Except.ok tr.x.length := rfl
    by_cases hn : tr.x.length ≤ 5
    · refine ⟨["Data Points: " ++ toString tr.x.length,
               "X Values: " ++ String.intercalate ", " (jElemsStr (JVal.arr tr.x))],
              ?_, by simp⟩
      rw [xLines, if_pos hxt, hplen]
      dsimp only
      rw [if_pos hn]
    · obtain ⟨a, xs, hxe⟩ := List.exists_cons_of_ne_nil hx
      have hfirst : jFirstE (JVal.arr tr.x) = Except.ok a := by rw [hxe]; rfl
      obtain ⟨b, hlast⟩ : ∃ b, jLastE (JVal.arr tr.x) = Except.ok b := by
        cases hgl : tr.x.getLast? with
        | some b => exact ⟨b, by simp [jLastE, hgl]⟩
        | none =>
          rw [List.getLast?_eq_none_iff] at hgl
          exact absurd hgl hx
      refine ⟨["Data Points: " ++ toString tr.x.length,
               "X Range: " ++ pyStr a ++ " to " ++ pyStr b], ?_, by simp⟩
      rw [xLines, if_pos hxt, hplen]
      dsimp only
      rw [if_neg hn, hfirst]
      dsimp only
      rw [hlast]
  obtain ⟨ly, hly⟩ : ∃ ly, yLines (JVal.arr tr.y) = Except.ok ly := by
    rcases hye : tr.y with _ | ⟨v, vs⟩
    · exact ⟨[], rfl⟩
    · rw [hye] at hy
      by_cases hn : (v :: vs).length ≤ 5
      · refine ⟨["Y Values: " ++ String.intercalate ", " ((v :: vs).map pyStr)], ?_⟩
        rw [yLines.eq_def]
        dsimp only
        rw [if_pos hn]
      · obtain ⟨l, hl, hlen⟩ := jInts?_of_all_num (v :: vs) hy
        cases l with
        | nil => simp at hlen
        | cons n ns =>
          have hmin : pyMinE (v :: vs) = Except.ok (JVal.num (ns.foldl min n)) := by
            rw [pyMinE.eq_def, hl]
          have hmax : pyMaxE (v :: vs) = Except.ok (JVal.num (ns.foldl max n)) := by
            rw [pyMaxE.eq_def, hl]
          refine ⟨["Y Range: " ++ pyStr (JVal.num (ns.foldl min n)) ++ " to " ++
                  pyStr (JVal.num (ns.foldl max n))], ?_⟩
          rw [yLines.eq_def]
          dsimp only
          rw [if_neg hn, hmin]
          dsimp only
          rw [hmax]
  refine ⟨["📊 " ++ t, dashLine (Nat.min (t.length + 4) 40),
           "Chart Type: " ++ (pyTitleChars tr.type_.toList false).asString] ++ lx ++ ly,
          ?_, ?_, ?_⟩
  · simp only [previewBody, h1, h2, h3, h4, pyLen, jTruthy, List.isEmpty_cons,
      Bool.not_false, pyIndex0, h5, h6, h7, pyTitleOf, hlx, hly, pyStr, if_true]
    simp
  · simp
  · simp [List.mem_append, hlxmem]

/-- Concrete use of `C8_roundtrip_amended`: a successful titled generation
returns `chart_data = None`, while the preview of its JSON reports the title
`Revenue` and the two-point count. -/
theorem C8_roundtrip_amended_witness :
    (generate_chart "out" "sales" (some ["html", "json"]) true envTitled).map
      (fun r => r.chart_data) = Except.ok none ∧
    (∃ L, previewBody (figToJson figTitled) = Except.ok L ∧
      L.head? = some ("📊 " ++ "Revenue") ∧
      ("Data Points: " ++ toString traceTitled.x.length) ∈ L) := by
  have h := C8_roundtrip_amended "out" "sales" (some ["html", "json"]) true envTitled
    figTitled "Revenue" traceTitled [] rfl rfl (List.cons_ne_nil _ _)
    (by simp [traceTitled, JVal.isNum])
  exact ⟨congrArg Except.ok (h.1 _ rfl), h.2⟩
